import Mathlib

/-!
Verification of the WAVE header parser in `src/wav.rs` of declick-rs.

The embedding below translates the Rust source faithfully:
bytes are `Nat` (values of `u8`), `u32`/`u16` fields are `Nat`
(the little-endian decoding of 4 or 2 bytes below 256 never overflows, so
no wrap-around modelling is required), fallible operations return
`Option`/`Except`, and the `try_into().unwrap()` calls inside
`slice_to_u32`/`slice_to_u16` are modelled by `Option` with `none`
standing for the panic.  The single blocking `stream.read` call of
`parse_wave_header` is modelled by a stream that records the outcome of
the first read call and the outcomes any further read calls would see.
-/

namespace Declick

/-- The `WaveHeader` struct of `src/wav.rs` (lines 56-74).  All fields are
unsigned fixed-width integers in Rust (`u32` or `u16`), modelled as `Nat`. -/
structure WaveHeader where
  chunk_id : Nat
  chunk_size : Nat
  format : Nat
  sub_chunk1_id : Nat
  sub_chunk1_size : Nat
  audio_format : Nat
  num_channels : Nat
  sample_rate : Nat
  byte_rate : Nat
  block_align : Nat
  bits_per_sample : Nat
  sub_chunk2_id : Nat
  sub_chunk2_size : Nat
  deriving DecidableEq, Repr

/-- `slice_to_u32` (line 185): `u32::from_le_bytes(array.try_into().unwrap())`.
The `unwrap` panics unless the slice has length exactly 4; the panic is
modelled as `none`. -/
def slice_to_u32 (array : List Nat) : Option Nat :=
  match array with
  | [a, b, c, d] => some (a + b * 256 + c * 65536 + d * 16777216)
  | _ => none

/-- `slice_to_u16` (line 189): `u16::from_le_bytes(array.try_into().unwrap())`. -/
def slice_to_u16 (array : List Nat) : Option Nat :=
  match array with
  | [a, b] => some (a + b * 256)
  | _ => none

/-- Rust slice indexing `&buf[a..b]`. -/
def slice (buf : List Nat) (a b : Nat) : List Nat :=
  (buf.drop a).take (b - a)

/-- The little-endian interpretation of a byte sequence, written from the
spec's words ("every multi-byte field is decoded as little-endian"); used
to compare the source's decoding against the spec's layout table. -/
def leValue : List Nat → Nat
  | [] => 0
  | b :: rest => b + 256 * leValue rest

/-- Lowercase hexadecimal rendering, Rust's `format!("{:x}", n)`. -/
def hexStr (n : Nat) : String :=
  String.mk (Nat.toDigits 16 n)

/-- Error message of the `chunk_id` check (lines 115-118). -/
def riffErrMsg (n : Nat) : String :=
  "Stream must have \x27RIFF\x27 header, but got 0x" ++ hexStr n ++ "."

/-- Error message of the `format` check (lines 121-124). -/
def waveErrMsg (n : Nat) : String :=
  "Stream must have \x27WAVE\x27 format, but got 0x" ++ hexStr n ++ "."

/-- Error message of the `sub_chunk1_id` check (lines 127-130). -/
def fmtErrMsg (n : Nat) : String :=
  "Stream must have \x27fmt \x27 sub chuck, but got 0x" ++ hexStr n ++ "."

/-- Error message of the `sub_chunk1_size` check (lines 133-136). -/
def fmtSizeErrMsg (n : Nat) : String :=
  "Stream \x27fmt \x27 sub chuck size must be 16, but got " ++ toString n ++ "."

/-- Error message of the `audio_format` check (lines 139-142). -/
def audioFormatErrMsg (n : Nat) : String :=
  "Stream audio format must be 1 (PCM), but got " ++ toString n ++ "."

/-- Error message of the short-read branch (lines 82-84). -/
def shortReadMsg (n : Nat) : String :=
  "WAVE header size must be 44-bytes long, but got " ++ toString n ++ "."

/-- `WaveHeader::is_valid` (lines 113-145): five checks in a fixed order,
each returning the first failing condition's message. -/
def WaveHeader.is_valid (h : WaveHeader) : Except String Unit :=
  if h.chunk_id ≠ 0x46464952 then Except.error (riffErrMsg h.chunk_id)
  else if h.format ≠ 0x45564157 then Except.error (waveErrMsg h.format)
  else if h.sub_chunk1_id ≠ 0x20746d66 then Except.error (fmtErrMsg h.sub_chunk1_id)
  else if h.sub_chunk1_size ≠ 16 then Except.error (fmtSizeErrMsg h.sub_chunk1_size)
  else if h.audio_format ≠ 1 then Except.error (audioFormatErrMsg h.audio_format)
  else Except.ok ()

/-- The struct-literal decoding step of `parse_wave_header` (lines 89-103):
thirteen fixed slices of the 44-byte buffer, each decoded little-endian.
`none` stands for a panic of one of the `unwrap` calls. -/
def decodeHeader (buf : List Nat) : Option WaveHeader := do
  let chunk_id ← slice_to_u32 (slice buf 0 4)
  let chunk_size ← slice_to_u32 (slice buf 4 8)
  let format ← slice_to_u32 (slice buf 8 12)
  let sub_chunk1_id ← slice_to_u32 (slice buf 12 16)
  let sub_chunk1_size ← slice_to_u32 (slice buf 16 20)
  let audio_format ← slice_to_u16 (slice buf 20 22)
  let num_channels ← slice_to_u16 (slice buf 22 24)
  let sample_rate ← slice_to_u32 (slice buf 24 28)
  let byte_rate ← slice_to_u32 (slice buf 28 32)
  let block_align ← slice_to_u16 (slice buf 32 34)
  let bits_per_sample ← slice_to_u16 (slice buf 34 36)
  let sub_chunk2_id ← slice_to_u32 (slice buf 36 40)
  let sub_chunk2_size ← slice_to_u32 (slice buf 40 44)
  pure ⟨chunk_id, chunk_size, format, sub_chunk1_id, sub_chunk1_size,
        audio_format, num_channels, sample_rate, byte_rate, block_align,
        bits_per_sample, sub_chunk2_id, sub_chunk2_size⟩

/-- Outcome of one `stream.read(&mut buf)` call: either an I/O error or
`n` bytes written into the buffer (`data.length = n`). -/
inductive ReadOutcome where
  | err (e : String)
  | ok (data : List Nat)
  deriving DecidableEq, Repr

/-- A byte stream, seen through the `io::Read` interface: the outcome the
next read call will see, followed by the outcomes later read calls would
see.  `parse_wave_header` performs a single read, so it consumes exactly
`first` and leaves `rest` untouched. -/
structure ByteStream where
  first : ReadOutcome
  rest : List ReadOutcome
  deriving DecidableEq, Repr

/-- `parse_wave_header` (lines 76-110).  The result pairs the returned
`Result` with the part of the stream no read call consumed; the outer
`Option` is `none` exactly when a decoding `unwrap` would panic (proved
unreachable below).  The 44-byte buffer starts zero-initialised and the
read call overwrites its first `n` bytes. -/
def parse_wave_header (stream : ByteStream) :
    Option (Except String WaveHeader × List ReadOutcome) :=
  match stream.first with
  | .err e => some (.error e, stream.rest)
  | .ok data =>
    let n := data.length
    if n ≠ 44 then
      some (.error (shortReadMsg n), stream.rest)
    else
      let buf := data ++ List.replicate (44 - n) 0
      match decodeHeader buf with
      | none => none
      | some header =>
        match header.is_valid with
        | .error e => some (.error e, stream.rest)
        | .ok _ => some (.ok header, stream.rest)

/-- The `Display` implementation for `WaveHeader` (lines 148-183): the
exact text produced by the `writeln!` format string, `\x7b`/`\x7d` being
the braces of the Rust `{{`/`}}` escapes and the final newline coming
from `writeln!`. -/
def render (h : WaveHeader) : String :=
  "\nWaveHeader \x7b\n    chunk_id: 0x" ++ hexStr h.chunk_id
    ++ "\n    chunk_size: " ++ toString h.chunk_size
    ++ "\n    format: " ++ toString h.format
    ++ "\n    sub_chunk1_id: 0x" ++ hexStr h.sub_chunk1_id
    ++ "\n    sub_chunk1_size: " ++ toString h.sub_chunk1_size
    ++ "\n    audio_format: " ++ toString h.audio_format
    ++ "\n    num_channels: " ++ toString h.num_channels
    ++ "\n    sample_rate: " ++ toString h.sample_rate
    ++ "\n    byte_rate: " ++ toString h.byte_rate
    ++ "\n    block_align: " ++ toString h.block_align
    ++ "\n    bits_per_sample:" ++ toString h.bits_per_sample ++ " "
    ++ "\n    sub_chunk2_id: " ++ toString h.sub_chunk2_id
    ++ "\n    sub_chunk2_size: " ++ toString h.sub_chunk2_size
    ++ "\n\x7d\n"

/-- `Shows t s`: the rendered text `t` contains `s` as a substring. -/
def Shows (t s : String) : Prop :=
  s.data <:+: t.data

instance (t s : String) : Decidable (Shows t s) :=
  List.decidableInfix s.data t.data

/-- A fully valid 44-byte buffer: "RIFF", size 36, "WAVE", "fmt ", 16,
PCM, stereo, 44100 Hz, byte rate 176400, block align 4, 16 bits,
"data", payload size 0. -/
def exampleBuf : List Nat :=
  [0x52, 0x49, 0x46, 0x46, 36, 0, 0, 0, 0x57, 0x41, 0x56, 0x45,
   0x66, 0x6d, 0x74, 0x20, 16, 0, 0, 0, 1, 0, 2, 0,
   0x44, 0xAC, 0, 0, 0x10, 0xB1, 0x02, 0, 4, 0, 16, 0,
   0x64, 0x61, 0x74, 0x61, 0, 0, 0, 0]

/-- The header decoded from `exampleBuf`. -/
def validHeader : WaveHeader :=
  ⟨0x46464952, 36, 0x45564157, 0x20746d66, 16, 1, 2, 44100, 176400, 4, 16,
   0x61746164, 0⟩

/-- A 44-byte buffer of zeroes (decodes, but fails every validation). -/
def zeroBuf : List Nat := List.replicate 44 0

section Helpers

lemma slice_to_u32_eq_leValue (l : List Nat) (hl : l.length = 4) :
    slice_to_u32 l = some (leValue l) := by
  rcases l with _ | ⟨a, l⟩; · simp at hl
  rcases l with _ | ⟨b, l⟩; · simp at hl
  rcases l with _ | ⟨c, l⟩; · simp at hl
  rcases l with _ | ⟨d, l⟩
  · simp at hl
  rcases l with _ | ⟨e, l⟩
  · simp [slice_to_u32, leValue]; ring
  · simp at hl

lemma slice_to_u16_eq_leValue (l : List Nat) (hl : l.length = 2) :
    slice_to_u16 l = some (leValue l) := by
  rcases l with _ | ⟨a, l⟩; · simp at hl
  rcases l with _ | ⟨b, l⟩
  · simp at hl
  rcases l with _ | ⟨c, l⟩
  · simp [slice_to_u16, leValue]; ring
  · simp at hl

lemma slice_length (buf : List Nat) (a b : Nat) :
    (slice buf a b).length = min (b - a) (buf.length - a) := by
  simp [slice]

lemma decodeHeader_eq (buf : List Nat) (hlen : buf.length = 44) :
    decodeHeader buf = some
      ⟨leValue (slice buf 0 4), leValue (slice buf 4 8),
       leValue (slice buf 8 12), leValue (slice buf 12 16),
       leValue (slice buf 16 20), leValue (slice buf 20 22),
       leValue (slice buf 22 24), leValue (slice buf 24 28),
       leValue (slice buf 28 32), leValue (slice buf 32 34),
       leValue (slice buf 34 36), leValue (slice buf 36 40),
       leValue (slice buf 40 44)⟩ := by
  have c1 := slice_to_u32_eq_leValue (slice buf 0 4) (by simp [slice_length, hlen])
  have c2 := slice_to_u32_eq_leValue (slice buf 4 8) (by simp [slice_length, hlen])
  have c3 := slice_to_u32_eq_leValue (slice buf 8 12) (by simp [slice_length, hlen])
  have c4 := slice_to_u32_eq_leValue (slice buf 12 16) (by simp [slice_length, hlen])
  have c5 := slice_to_u32_eq_leValue (slice buf 16 20) (by simp [slice_length, hlen])
  have c6 := slice_to_u16_eq_leValue (slice buf 20 22) (by simp [slice_length, hlen])
  have c7 := slice_to_u16_eq_leValue (slice buf 22 24) (by simp [slice_length, hlen])
  have c8 := slice_to_u32_eq_leValue (slice buf 24 28) (by simp [slice_length, hlen])
  have c9 := slice_to_u32_eq_leValue (slice buf 28 32) (by simp [slice_length, hlen])
  have c10 := slice_to_u16_eq_leValue (slice buf 32 34) (by simp [slice_length, hlen])
  have c11 := slice_to_u16_eq_leValue (slice buf 34 36) (by simp [slice_length, hlen])
  have c12 := slice_to_u32_eq_leValue (slice buf 36 40) (by simp [slice_length, hlen])
  have c13 := slice_to_u32_eq_leValue (slice buf 40 44) (by simp [slice_length, hlen])
  simp [decodeHeader, c1, c2, c3, c4, c5, c6, c7, c8, c9, c10, c11, c12, c13]

lemma parse_short (data : List Nat) (rest : List ReadOutcome)
    (h : data.length ≠ 44) :
    parse_wave_header ⟨.ok data, rest⟩ =
      some (.error (shortReadMsg data.length), rest) := by
  simp [parse_wave_header, h]

lemma parse_io_err (e : String) (rest : List ReadOutcome) :
    parse_wave_header ⟨.err e, rest⟩ = some (.error e, rest) := rfl

lemma parse_eq_44 (data : List Nat) (rest : List ReadOutcome)
    (hlen : data.length = 44) :
    parse_wave_header ⟨.ok data, rest⟩ =
      (match decodeHeader data with
       | none => none
       | some header =>
         match header.is_valid with
         | .error e => some (.error e, rest)
         | .ok _ => some (.ok header, rest)) := by
  simp only [parse_wave_header, hlen]
  simp

lemma parse_decoded (data : List Nat) (rest : List ReadOutcome)
    (header : WaveHeader) (hlen : data.length = 44)
    (hdec : decodeHeader data = some header) :
    parse_wave_header ⟨.ok data, rest⟩ =
      (match header.is_valid with
       | .error e => some (.error e, rest)
       | .ok _ => some (.ok header, rest)) := by
  rw [parse_eq_44 data rest hlen, hdec]

/-- Peel off an explicit prefix and suffix to exhibit a substring. -/
lemma shows_intro (t s : String) (u v : List Char)
    (h : u ++ (s.data ++ v) = t.data) : Shows t s :=
  ⟨u, v, by rw [List.append_assoc]; exact h⟩

end Helpers

/-- Claim C9: the byte-order decode primitives satisfy the source-test
fixtures `slice_to_u32([1,2,3,4]) == 0x04030201` and
`slice_to_u16([1,2]) == 0x0201`. -/
theorem byte_order_fixtures :
    slice_to_u32 [1, 2, 3, 4] = some 0x04030201 ∧
    slice_to_u16 [1, 2] = some 0x0201 := by
  decide

/-- Claim C2 (counterexample): a header that validates successfully has
`chunk_id = 0x46464952`, not `0x52494646` as the claim reads the layout
table; so `is_valid` can return `Ok` while `chunk_id ≠ 0x52494646`. -/
theorem isValid_ok_chunk_id_cex :
    validHeader.is_valid = Except.ok () ∧ validHeader.chunk_id ≠ 0x52494646 :=
  ⟨rfl, by decide⟩

/-- Claim C2 (amended): `is_valid` returns `Ok` only if `chunk_id` equals
`0x46464952` (ASCII "RIFF" decoded little-endian, the byte-reversal of
the table's big-endian constant `0x52494646`) and `format` equals
`0x45564157` (ASCII "WAVE" decoded little-endian). -/
theorem isValid_ok_implies_le_magics :
    ∀ h : WaveHeader, h.is_valid = Except.ok () →
      h.chunk_id = 0x46464952 ∧ h.format = 0x45564157 := by
  intro h hv
  by_cases h1 : h.chunk_id = 0x46464952
  · by_cases h2 : h.format = 0x45564157
    · exact ⟨h1, h2⟩
    · simp [WaveHeader.is_valid, h1, h2] at hv
  · simp [WaveHeader.is_valid, h1] at hv

/-- Witness for the amended claim C2, at the concrete valid header. -/
theorem isValid_ok_implies_le_magics_witness :
    validHeader.chunk_id = 0x46464952 ∧ validHeader.format = 0x45564157 :=
  isValid_ok_implies_le_magics validHeader rfl

/-- Claim C3: `is_valid` reports the first violated check in the fixed
order chunk_id, format, sub_chunk1_id, sub_chunk1_size, audio_format; in
particular an invalid `chunk_id` is reported as the "RIFF" mismatch no
matter which other fields are also invalid. -/
theorem isValid_first_failure_wins :
    ∀ h : WaveHeader,
    (h.chunk_id ≠ 0x46464952 →
      h.is_valid = Except.error (riffErrMsg h.chunk_id)) ∧
    (h.chunk_id = 0x46464952 → h.format ≠ 0x45564157 →
      h.is_valid = Except.error (waveErrMsg h.format)) ∧
    (h.chunk_id = 0x46464952 → h.format = 0x45564157 →
      h.sub_chunk1_id ≠ 0x20746d66 →
      h.is_valid = Except.error (fmtErrMsg h.sub_chunk1_id)) ∧
    (h.chunk_id = 0x46464952 → h.format = 0x45564157 →
      h.sub_chunk1_id = 0x20746d66 → h.sub_chunk1_size ≠ 16 →
      h.is_valid = Except.error (fmtSizeErrMsg h.sub_chunk1_size)) ∧
    (h.chunk_id = 0x46464952 → h.format = 0x45564157 →
      h.sub_chunk1_id = 0x20746d66 → h.sub_chunk1_size = 16 →
      h.audio_format ≠ 1 →
      h.is_valid = Except.error (audioFormatErrMsg h.audio_format)) := by
  intro h
  refine ⟨fun h1 => ?_, fun h1 h2 => ?_, fun h1 h2 h3 => ?_,
          fun h1 h2 h3 h4 => ?_, fun h1 h2 h3 h4 h5 => ?_⟩ <;>
    simp [WaveHeader.is_valid, h1, *]

/-- Witness for claim C3: each of the five conjuncts applied at a header
whose first invalid field is the one the conjunct describes; the first
one has every validated field invalid and still reports "RIFF". -/
theorem isValid_first_failure_wins_witness :
    (WaveHeader.is_valid ⟨0, 0, 0, 0, 0, 0, 0, 0, 0, 0, 0, 0, 0⟩ =
      Except.error (riffErrMsg 0)) ∧
    (WaveHeader.is_valid ⟨0x46464952, 0, 0, 0, 0, 0, 0, 0, 0, 0, 0, 0, 0⟩ =
      Except.error (waveErrMsg 0)) ∧
    (WaveHeader.is_valid
        ⟨0x46464952, 0, 0x45564157, 0, 0, 0, 0, 0, 0, 0, 0, 0, 0⟩ =
      Except.error (fmtErrMsg 0)) ∧
    (WaveHeader.is_valid
        ⟨0x46464952, 0, 0x45564157, 0x20746d66, 0, 0, 0, 0, 0, 0, 0, 0, 0⟩ =
      Except.error (fmtSizeErrMsg 0)) ∧
    (WaveHeader.is_valid
        ⟨0x46464952, 0, 0x45564157, 0x20746d66, 16, 0, 0, 0, 0, 0, 0, 0, 0⟩ =
      Except.error (audioFormatErrMsg 0)) :=
  ⟨(isValid_first_failure_wins _).1 (by decide),
   (isValid_first_failure_wins _).2.1 (by decide) (by decide),
   (isValid_first_failure_wins _).2.2.1 (by decide) (by decide) (by decide),
   (isValid_first_failure_wins _).2.2.2.1 (by decide) (by decide) (by decide)
     (by decide),
   (isValid_first_failure_wins _).2.2.2.2 (by decide) (by decide) (by decide)
     (by decide) (by decide)⟩

/-- Claim C1: a 44-byte buffer whose decoded `chunk_id` is the
little-endian decoding of ASCII "RIFF" (`0x46464952`), whose decoded
`format` is "WAVE" (`0x45564157`), `sub_chunk1_id` is "fmt "
(`0x20746d66`), `sub_chunk1_size` is 16 and `audio_format` is 1
validates successfully and parses to its decoded header, whatever the
other eight fields hold. -/
theorem magics_validate :
    ∀ (buf : List Nat) (rest : List ReadOutcome),
    buf.length = 44 →
    leValue (slice buf 0 4) = 0x46464952 →
    leValue (slice buf 8 12) = 0x45564157 →
    leValue (slice buf 12 16) = 0x20746d66 →
    leValue (slice buf 16 20) = 16 →
    leValue (slice buf 20 22) = 1 →
    ∃ h : WaveHeader, decodeHeader buf = some h ∧
      h.is_valid = Except.ok () ∧
      parse_wave_header ⟨.ok buf, rest⟩ = some (.ok h, rest) := by
  intro buf rest hlen h1 h2 h3 h4 h5
  refine ⟨_, decodeHeader_eq buf hlen, ?_, ?_⟩
  · simp [WaveHeader.is_valid, h1, h2, h3, h4, h5]
  · rw [parse_decoded buf rest _ hlen (decodeHeader_eq buf hlen)]
    simp [WaveHeader.is_valid, h1, h2, h3, h4, h5]

/-- Witness for claim C1, at the concrete valid buffer. -/
theorem magics_validate_witness :
    ∃ h : WaveHeader, decodeHeader exampleBuf = some h ∧
      h.is_valid = Except.ok () ∧
      parse_wave_header ⟨.ok exampleBuf, []⟩ = some (.ok h, []) :=
  magics_validate exampleBuf [] (by decide) (by decide) (by decide)
    (by decide) (by decide) (by decide)

/-- Claim C4: a stream whose single read yields fewer than 44 bytes
fails with the short-read message, which contains the decimal rendering
of the actual number of bytes read; an I/O failure, by contrast, is
surfaced verbatim, so the two error kinds come from different branches. -/
theorem short_read_error :
    ∀ (data : List Nat) (rest : List ReadOutcome),
    data.length < 44 →
    parse_wave_header ⟨.ok data, rest⟩ =
      some (.error (shortReadMsg data.length), rest) ∧
    Shows (shortReadMsg data.length) (toString data.length) ∧
    ∀ e : String, parse_wave_header ⟨.err e, rest⟩ = some (.error e, rest) := by
  intro data rest hlt
  refine ⟨parse_short data rest (by omega), ?_, fun e => rfl⟩
  refine shows_intro _ _
    "WAVE header size must be 44-bytes long, but got ".data ".".data ?_
  simp [shortReadMsg, String.data_append, List.append_assoc]

/-- Witness for claim C4: a stream yielding only 30 bytes reports 30;
an I/O error string passes through verbatim. -/
theorem short_read_error_witness :
    parse_wave_header ⟨.ok (List.replicate 30 0), []⟩ =
      some (.error (shortReadMsg 30), []) ∧
    Shows (shortReadMsg 30) (toString 30) ∧
    parse_wave_header ⟨.err "disk failure", []⟩ =
      some (.error "disk failure", []) :=
  ⟨(short_read_error (List.replicate 30 0) [] (by decide)).1,
   (short_read_error (List.replicate 30 0) [] (by decide)).2.1,
   (short_read_error (List.replicate 30 0) [] (by decide)).2.2 "disk failure"⟩

/-- Claim C5: the thirteen fields of the decoded header come from byte
offsets 0,4,8,12,16,20,22,24,28,32,34,36,40 with sizes
4,4,4,4,4,2,2,4,4,2,2,4,4, each interpreted little-endian. -/
theorem decode_field_layout :
    ∀ buf : List Nat, buf.length = 44 →
    decodeHeader buf = some
      ⟨leValue ((buf.drop 0).take 4), leValue ((buf.drop 4).take 4),
       leValue ((buf.drop 8).take 4), leValue ((buf.drop 12).take 4),
       leValue ((buf.drop 16).take 4), leValue ((buf.drop 20).take 2),
       leValue ((buf.drop 22).take 2), leValue ((buf.drop 24).take 4),
       leValue ((buf.drop 28).take 4), leValue ((buf.drop 32).take 2),
       leValue ((buf.drop 34).take 2), leValue ((buf.drop 36).take 4),
       leValue ((buf.drop 40).take 4)⟩ := fun buf hlen =>
  decodeHeader_eq buf hlen

/-- Witness for claim C5: on the concrete valid buffer the layout
evaluates to the expected header. -/
theorem decode_field_layout_witness :
    decodeHeader exampleBuf = some validHeader := by
  rw [decode_field_layout exampleBuf (by decide)]
  decide

/-- Claim C6: decoding a 44-byte buffer is total: every slice passed to
`slice_to_u32` has length exactly 4, every slice passed to
`slice_to_u16` has length exactly 2, and `decodeHeader` returns a
header (no `unwrap` panic, modelled as `none`, can occur). -/
theorem decode_total :
    ∀ buf : List Nat, buf.length = 44 →
    ((slice buf 0 4).length = 4 ∧ (slice buf 4 8).length = 4 ∧
     (slice buf 8 12).length = 4 ∧ (slice buf 12 16).length = 4 ∧
     (slice buf 16 20).length = 4 ∧ (slice buf 20 22).length = 2 ∧
     (slice buf 22 24).length = 2 ∧ (slice buf 24 28).length = 4 ∧
     (slice buf 28 32).length = 4 ∧ (slice buf 32 34).length = 2 ∧
     (slice buf 34 36).length = 2 ∧ (slice buf 36 40).length = 4 ∧
     (slice buf 40 44).length = 4) ∧
    (decodeHeader buf).isSome = true := by
  intro buf hlen
  constructor
  · refine ⟨?_, ?_, ?_, ?_, ?_, ?_, ?_, ?_, ?_, ?_, ?_, ?_, ?_⟩ <;>
      simp [slice_length, hlen]
  · rw [decodeHeader_eq buf hlen]
    rfl

/-- Witness for claim C6, at the all-zero 44-byte buffer. -/
theorem decode_total_witness :
    ((slice zeroBuf 0 4).length = 4 ∧ (slice zeroBuf 4 8).length = 4 ∧
     (slice zeroBuf 8 12).length = 4 ∧ (slice zeroBuf 12 16).length = 4 ∧
     (slice zeroBuf 16 20).length = 4 ∧ (slice zeroBuf 20 22).length = 2 ∧
     (slice zeroBuf 22 24).length = 2 ∧ (slice zeroBuf 24 28).length = 4 ∧
     (slice zeroBuf 28 32).length = 4 ∧ (slice zeroBuf 32 34).length = 2 ∧
     (slice zeroBuf 34 36).length = 2 ∧ (slice zeroBuf 36 40).length = 4 ∧
     (slice zeroBuf 40 44).length = 4) ∧
    (decodeHeader zeroBuf).isSome = true :=
  decode_total zeroBuf (by decide)

/-- Claim C8: parsing is all-or-nothing: whatever result
`parse_wave_header` returns is either a fully validated header or an
error; and when the decoded header fails validation, that validation
error is returned unchanged (the decoded header is discarded). -/
theorem parse_all_or_nothing :
    ∀ (s : ByteStream) (r : Except String WaveHeader × List ReadOutcome),
    parse_wave_header s = some r →
    ((∃ h, r.1 = Except.ok h ∧ h.is_valid = Except.ok ()) ∨
      (∃ e, r.1 = Except.error e)) ∧
    (∀ (data : List Nat) (header : WaveHeader) (e : String),
      s.first = .ok data → data.length = 44 →
      decodeHeader data = some header → header.is_valid = Except.error e →
      r.1 = Except.error e) := by
  intro s r hr
  obtain ⟨first, rest⟩ := s
  constructor
  · cases first with
    | err e =>
      simp [parse_wave_header] at hr
      subst hr
      exact Or.inr ⟨e, rfl⟩
    | ok data =>
      by_cases hn : data.length = 44
      · cases hdec : decodeHeader data with
        | none =>
          rw [parse_eq_44 data rest hn, hdec] at hr
          simp at hr
        | some header =>
          rw [parse_decoded data rest header hn hdec] at hr
          cases hval : header.is_valid with
          | error e =>
            rw [hval] at hr
            simp at hr
            subst hr
            exact Or.inr ⟨e, rfl⟩
          | ok u =>
            rw [hval] at hr
            simp at hr
            subst hr
            exact Or.inl ⟨header, rfl, by cases u; exact hval⟩
      · rw [parse_short data rest hn] at hr
        simp at hr
        subst hr
        exact Or.inr ⟨shortReadMsg data.length, rfl⟩
  · intro data header e hfirst hlen hdec hval
    have hf : first = ReadOutcome.ok data := hfirst
    subst hf
    rw [parse_decoded data rest header hlen hdec, hval] at hr
    simp at hr
    subst hr
    rfl

/-- Witness for claim C8: the all-zero buffer decodes but fails the
"RIFF" check, and the parser returns exactly that validation error. -/
theorem parse_all_or_nothing_witness :
    ((∃ h, ((Except.error (riffErrMsg 0) : Except String WaveHeader),
        ([] : List ReadOutcome)).1 = Except.ok h ∧
        h.is_valid = Except.ok ()) ∨
      (∃ e, ((Except.error (riffErrMsg 0) : Except String WaveHeader),
        ([] : List ReadOutcome)).1 = Except.error e)) ∧
    ((Except.error (riffErrMsg 0) : Except String WaveHeader),
      ([] : List ReadOutcome)).1 = Except.error (riffErrMsg 0) := by
  have h := parse_all_or_nothing ⟨.ok zeroBuf, []⟩
    ((Except.error (riffErrMsg 0) : Except String WaveHeader),
      ([] : List ReadOutcome)) rfl
  exact ⟨h.1, h.2 zeroBuf ⟨0, 0, 0, 0, 0, 0, 0, 0, 0, 0, 0, 0, 0⟩
    (riffErrMsg 0) rfl (by decide) rfl rfl⟩

/-- Claim C10: the parser issues a single read and never retries: if the
one read yields `n ≠ 44` bytes the short-read error reporting `n` is
returned at once, and the outcomes later reads would have seen are left
untouched in the stream. -/
theorem single_read_no_retry :
    ∀ (data : List Nat) (rest : List ReadOutcome), data.length ≠ 44 →
    parse_wave_header ⟨.ok data, rest⟩ =
      some (.error (shortReadMsg data.length), rest) :=
  parse_short

lemma shows_suffix (u s : String) : Shows (u ++ s) s :=
  ⟨u.data, [], by simp [String.data_append]⟩

lemma shows_append_right (t v s : String) (hs : Shows t s) : Shows (t ++ v) s := by
  obtain ⟨a, b, hab⟩ := hs
  exact ⟨a, b ++ v.data, by rw [String.data_append, ← hab]; simp [List.append_assoc]⟩

set_option maxRecDepth 10000 in
lemma render_decomp (h : WaveHeader) :
    render h =
      "\nWaveHeader \x7b\n    " ++ ("chunk_id: 0x" ++ hexStr h.chunk_id) ++ "\n    "
      ++ ("chunk_size: " ++ toString h.chunk_size) ++ "\n    "
      ++ ("format: " ++ toString h.format) ++ "\n    "
      ++ ("sub_chunk1_id: 0x" ++ hexStr h.sub_chunk1_id) ++ "\n    "
      ++ ("sub_chunk1_size: " ++ toString h.sub_chunk1_size) ++ "\n    "
      ++ ("audio_format: " ++ toString h.audio_format) ++ "\n    "
      ++ ("num_channels: " ++ toString h.num_channels) ++ "\n    "
      ++ ("sample_rate: " ++ toString h.sample_rate) ++ "\n    "
      ++ ("byte_rate: " ++ toString h.byte_rate) ++ "\n    "
      ++ ("block_align: " ++ toString h.block_align) ++ "\n    "
      ++ ("bits_per_sample:" ++ toString h.bits_per_sample) ++ " \n    "
      ++ ("sub_chunk2_id: " ++ toString h.sub_chunk2_id) ++ "\n    "
      ++ ("sub_chunk2_size: " ++ toString h.sub_chunk2_size) ++ "\n\x7d\n" := by
  apply String.ext
  simp only [render, String.data_append, List.append_assoc]
  rfl

set_option maxRecDepth 40000 in
/-- Claim C7 (counterexample): the rendered block shows `format` (and
`sub_chunk2_id`) in decimal, not hexadecimal, so not every magic-number
field is shown in hexadecimal: at a fully valid header the text contains
"format: 1163280727" and no "format: 0x45564157" nor a 0x-prefixed
`sub_chunk2_id`. -/
theorem render_not_all_hex_cex :
    Shows (render validHeader) ("format: " ++ toString validHeader.format) ∧
    ¬ Shows (render validHeader) ("format: 0x" ++ hexStr validHeader.format) ∧
    ¬ Shows (render validHeader)
        ("sub_chunk2_id: 0x" ++ hexStr validHeader.sub_chunk2_id) := by
  refine ⟨?_, ?_, ?_⟩ <;> decide

/-- Claim C7 (amended): the rendered text block shows `chunk_id` and
`sub_chunk1_id` in hexadecimal with a 0x prefix, while `format`,
`sub_chunk2_id` and every other integer field are shown in decimal. -/
theorem render_field_bases :
    ∀ h : WaveHeader,
    Shows (render h) ("chunk_id: 0x" ++ hexStr h.chunk_id) ∧
    Shows (render h) ("chunk_size: " ++ toString h.chunk_size) ∧
    Shows (render h) ("format: " ++ toString h.format) ∧
    Shows (render h) ("sub_chunk1_id: 0x" ++ hexStr h.sub_chunk1_id) ∧
    Shows (render h) ("sub_chunk1_size: " ++ toString h.sub_chunk1_size) ∧
    Shows (render h) ("audio_format: " ++ toString h.audio_format) ∧
    Shows (render h) ("num_channels: " ++ toString h.num_channels) ∧
    Shows (render h) ("sample_rate: " ++ toString h.sample_rate) ∧
    Shows (render h) ("byte_rate: " ++ toString h.byte_rate) ∧
    Shows (render h) ("block_align: " ++ toString h.block_align) ∧
    Shows (render h) ("bits_per_sample:" ++ toString h.bits_per_sample) ∧
    Shows (render h) ("sub_chunk2_id: " ++ toString h.sub_chunk2_id) ∧
    Shows (render h) ("sub_chunk2_size: " ++ toString h.sub_chunk2_size) := by
  intro h
  refine ⟨?_, ?_, ?_, ?_, ?_, ?_, ?_, ?_, ?_, ?_, ?_, ?_, ?_⟩ <;>
    rw [render_decomp]
  · iterate 25 apply shows_append_right
    exact shows_suffix _ _
  · iterate 23 apply shows_append_right
    exact shows_suffix _ _
  · iterate 21 apply shows_append_right
    exact shows_suffix _ _
  · iterate 19 apply shows_append_right
    exact shows_suffix _ _
  · iterate 17 apply shows_append_right
    exact shows_suffix _ _
  · iterate 15 apply shows_append_right
    exact shows_suffix _ _
  · iterate 13 apply shows_append_right
    exact shows_suffix _ _
  · iterate 11 apply shows_append_right
    exact shows_suffix _ _
  · iterate 9 apply shows_append_right
    exact shows_suffix _ _
  · iterate 7 apply shows_append_right
    exact shows_suffix _ _
  · iterate 5 apply shows_append_right
    exact shows_suffix _ _
  · iterate 3 apply shows_append_right
    exact shows_suffix _ _
  · iterate 1 apply shows_append_right
    exact shows_suffix _ _

/-- Witness for claim C10: the first read yields 3 bytes while a further
read could have supplied 44 more; the parser still fails with the
short-read error and leaves the remaining outcome unconsumed. -/
theorem single_read_no_retry_witness :
    parse_wave_header ⟨.ok [1, 2, 3], [.ok zeroBuf]⟩ =
      some (.error (shortReadMsg 3), [.ok zeroBuf]) :=
  single_read_no_retry [1, 2, 3] [.ok zeroBuf] (by decide)

end Declick
